import Mathlib

/-!
Shallow embedding of the fluent render core (github.com/jpl-au/fluent):
the tiered buffer pool (pool/pool.go), the buffer lifecycle facade
(fluent.go), and the composite node variants (node/conditional.go,
node/function.go, the multi-node function component, and the text node in
security/security.go), together with proofs about the embedded operations.

Modelling conventions:
* A Go `*bytes.Buffer` is a `Buffer`: its byte content (`data`, a list of
  byte values) and its capacity (`cap`).  `Reset` keeps capacity and drops
  the content; `Grow n` guarantees `cap - len ≥ n` afterwards, reallocating
  to at least `max (2*cap) (len+n)` when needed (Go `growSlice` chooses at
  least this much; the claims only rely on the guaranteed lower bound).
* The two `sync.Pool` registries are lists of idle buffers.  `sync.Pool.Get`
  removes an arbitrary idle element, modelled as the head; when the registry
  is empty the pool's `New` function supplies a fresh empty buffer
  (`&bytes.Buffer{}`, capacity 0), so `Get` in pool.go never observes `nil`.
* The process-wide configuration variables (`enabled`, `poolThreshold`,
  `maxPoolSize`, `discardOversized`) are fields of a `PoolConfig` carried in
  the explicit `PoolState` that every operation threads.
* Sizes and capacities are byte counts, modelled as `Nat` (the claims only
  concern non-negative hints and sizes).
-/

/-- A Go `bytes.Buffer`: current content (`data`, whose length is the
buffer's length) and current capacity. -/
structure Buffer where
  data : List Nat
  cap : Nat
deriving DecidableEq, Repr

namespace Buffer

/-- Go `bytes.NewBuffer(make([]byte, 0, hint))`: a fresh empty buffer with
capacity `hint`. -/
def fresh (hint : Nat) : Buffer := { data := [], cap := hint }

/-- Go `Buffer.Reset`: drops the content, keeps the capacity. -/
def reset (b : Buffer) : Buffer := { b with data := [] }

/-- Go `Buffer.Grow n`: guarantee room for `n` more bytes.  If the spare
capacity already suffices this is a no-op; otherwise Go reallocates to at
least `max (2*cap) (len+n)` bytes of capacity. -/
def grow (b : Buffer) (n : Nat) : Buffer :=
  if n ≤ b.cap - b.data.length then b
  else { b with cap := max (2 * b.cap) (b.data.length + n) }

/-- The `pooled.Reset(); if hint > 0 { pooled.Grow(hint) }` sequence from
pool.Get. -/
def resetGrow (b : Buffer) (hint : Nat) : Buffer :=
  let r := b.reset
  if hint > 0 then r.grow hint else r

/-- Go `Buffer.WriteString`/`Buffer.Write`: append bytes, growing the capacity
when the new length exceeds it. -/
def write (b : Buffer) (s : List Nat) : Buffer :=
  let d := b.data ++ s
  { data := d, cap := if d.length ≤ b.cap then b.cap else max (2 * b.cap) d.length }

end Buffer

/-- The process-wide pool configuration variables of pool.go:
`enabled`, `poolThreshold`, `maxPoolSize`, `discardOversized`. -/
structure PoolConfig where
  enabled : Bool
  poolThreshold : Nat
  maxPoolSize : Nat
  discardOversized : Bool
deriving DecidableEq, Repr

/-- The defaults installed at process start: enabled, threshold 4 KiB,
max pooled size 256 KiB, discard oversized buffers. -/
def PoolConfig.default : PoolConfig :=
  { enabled := true, poolThreshold := 4 * 1024, maxPoolSize := 256 * 1024,
    discardOversized := true }

/-- The pool's mutable state: the configuration and the two registries
(`smallPool`, `largePool`), each a bag of idle buffers. -/
structure PoolState where
  config : PoolConfig
  small : List Buffer
  large : List Buffer
deriving DecidableEq, Repr

namespace Pool

/-- pool.Get: if pooling is disabled, a fresh buffer with capacity `hint`.
Otherwise draw from the registry selected by `hint < poolThreshold`; an
empty registry yields the pool's `New` buffer (fresh, capacity 0).  The
drawn buffer is Reset and, when `hint > 0`, Grown to at least `hint`. -/
def Get (hint : Nat) (s : PoolState) : Buffer × PoolState :=
  if s.config.enabled = false then
    (Buffer.fresh hint, s)
  else if hint < s.config.poolThreshold then
    match s.small with
    | b :: rest => (b.resetGrow hint, { s with small := rest })
    | [] => ((Buffer.fresh 0).resetGrow hint, s)
  else
    match s.large with
    | b :: rest => (b.resetGrow hint, { s with large := rest })
    | [] => ((Buffer.fresh 0).resetGrow hint, s)

/-- pool.Put: no-op when pooling is disabled or the buffer is nil.  An
oversized buffer (capacity > maxPoolSize) is dropped when
`discardOversized`; otherwise (including the oversized case with
`discardOversized = false`, where pool.go performs no truncation) the
buffer is Reset and routed by its capacity against the threshold. -/
def Put (b? : Option Buffer) (s : PoolState) : PoolState :=
  if s.config.enabled = false then s
  else
    match b? with
    | none => s
    | some b =>
      if b.cap > s.config.maxPoolSize ∧ s.config.discardOversized then s
      else if b.cap < s.config.poolThreshold then
        { s with small := s.small ++ [b.reset] }
      else
        { s with large := s.large ++ [b.reset] }

end Pool

/-- The composite Node variants of the repository, as one closed inductive:
TextNode (security/security.go — stored content bytes), ConditionalBuilder
used as a node (node/conditional.go — condition plus optional branches),
FunctionComponent (node/function.go — a possibly-nil callback returning one
possibly-nil Node) and FunctionsComponent (a possibly-nil callback returning
a list of possibly-nil Nodes).  The zero-argument callbacks are pure
synchronous closures, so they are embedded by the value they return:
`funcNode none` is a nil `fn` field, `funcNode (some none)` a callback
returning nil, and likewise for `funcNodes`. -/
inductive Node where
  | text (content : List Nat)
  | conditional (condition : Bool) (trueNode falseNode : Option Node)
  | funcNode (fn : Option (Option Node))
  | funcNodes (fn : Option (List (Option Node)))

mutual

/-- RenderBuilder, per variant.  TextNode.RenderBuilder writes the stored
content (buf.WriteString(tn.content)); ConditionalBuilder.RenderBuilder
renders the true branch when the condition holds and one is set, else the
false branch when the condition fails and one is set, else nothing;
FunctionComponent.RenderBuilder invokes the callback and renders a non-nil
result; FunctionsComponent.RenderBuilder invokes the callback and renders
each non-nil element in order. -/
def Node.RenderBuilder : Node → Buffer → Buffer
  | .text c, buf => buf.write c
  | .conditional cond t f, buf =>
    if cond then
      match t with
      | some n => n.RenderBuilder buf
      | none => buf
    else
      match f with
      | some n => n.RenderBuilder buf
      | none => buf
  | .funcNode fn, buf =>
    match fn with
    | some (some n) => n.RenderBuilder buf
    | _ => buf
  | .funcNodes fn, buf =>
    match fn with
    | some ns => Node.renderEach ns buf
    | none => buf

/-- The loop of FunctionsComponent.RenderBuilder: for each node returned by
the callback, render it unless it is nil. -/
def Node.renderEach : List (Option Node) → Buffer → Buffer
  | [], buf => buf
  | none :: rest, buf => Node.renderEach rest buf
  | some n :: rest, buf => Node.renderEach rest (n.RenderBuilder buf)

end

/-- node.ConditionalBuilder: a boolean condition and the optional stored
branches. -/
structure ConditionalBuilder where
  condition : Bool
  trueNode : Option Node
  falseNode : Option Node

/-- node.Condition: a new builder with the given condition and no branches. -/
def Condition (condition : Bool) : ConditionalBuilder :=
  { condition := condition, trueNode := none, falseNode := none }

/-- The reflect.Kind of the dynamic type inside a non-nil Go interface
value.  reflect.Value.IsNil is defined only for chan, func, interface, map,
pointer and slice kinds and panics for every other kind (struct, int, ...). -/
inductive GoKind where
  | ptr
  | chanK
  | funcK
  | ifaceK
  | mapK
  | sliceK
  | structK
  | intK
deriving DecidableEq, Repr

/-- Whether reflect.Value.IsNil is defined for this kind. -/
def GoKind.nilable : GoKind → Bool
  | .ptr | .chanK | .funcK | .ifaceK | .mapK | .sliceK => true
  | .structK | .intK => false

/-- A Go interface value of static type node.Node as passed to True/False:
either the nil interface, or a non-nil interface holding a value of some
dynamic kind — possibly a typed nil for nilable kinds — denoting `payload`. -/
inductive NodeArg where
  | nilIface
  | value (kind : GoKind) (isNilValue : Bool) (payload : Node)

/-- A convenience for passing one of the repository's own node values: all
of them are pointer types, so the dynamic kind is pointer and the value is
not nil. -/
def NodeArg.ofNode (n : Node) : NodeArg := .value .ptr false n

/-- Go reflect.ValueOf(node).IsNil() on a non-nil interface value: returns
whether the held value is a typed nil when the kind supports nil, and
panics (modelled as Except.error) otherwise. -/
def reflectIsNil (kind : GoKind) (isNilValue : Bool) : Except Unit Bool :=
  if kind.nilable then .ok isNilValue else .error ()

/-- ConditionalBuilder.True: `if node != nil && !reflect.ValueOf(node).IsNil()
{ c.trueNode = node }`.  A nil interface short-circuits the conjunction; a
typed nil is not stored; a non-nilable dynamic kind makes IsNil panic. -/
def ConditionalBuilder.True (c : ConditionalBuilder) (node : NodeArg) :
    Except Unit ConditionalBuilder :=
  match node with
  | .nilIface => .ok c
  | .value kind isNilValue payload =>
    match reflectIsNil kind isNilValue with
    | .error e => .error e
    | .ok true => .ok c
    | .ok false => .ok { c with trueNode := some payload }

/-- ConditionalBuilder.False: same nil handling as True, storing into
falseNode. -/
def ConditionalBuilder.False (c : ConditionalBuilder) (node : NodeArg) :
    Except Unit ConditionalBuilder :=
  match node with
  | .nilIface => .ok c
  | .value kind isNilValue payload =>
    match reflectIsNil kind isNilValue with
    | .error e => .error e
    | .ok true => .ok c
    | .ok false => .ok { c with falseNode := some payload }

/-- The ConditionalBuilder seen as a Node (it implements the Node contract
with exactly its three fields). -/
def ConditionalBuilder.toNode (c : ConditionalBuilder) : Node :=
  .conditional c.condition c.trueNode c.falseNode

/-- ConditionalBuilder.RenderBuilder from node/conditional.go. -/
def ConditionalBuilder.RenderBuilder (c : ConditionalBuilder) (buf : Buffer) : Buffer :=
  c.toNode.RenderBuilder buf

/-- ConditionalBuilder.Nodes: starts from an empty list, appends the true
branch when set, then the false branch when set. -/
def ConditionalBuilder.Nodes (c : ConditionalBuilder) : List Node :=
  (match c.trueNode with
   | some n => [n]
   | none => []) ++
  (match c.falseNode with
   | some n => [n]
   | none => [])

/-- fluent.NewBuffer with no hint argument, as called by every Render: the
hint defaults to 0 and the call delegates to pool.Get. -/
def NewBuffer (s : PoolState) : Buffer × PoolState := Pool.Get 0 s

/-- fluent.PutBuffer: delegates to pool.Put. -/
def PutBuffer (b : Buffer) (s : PoolState) : PoolState := Pool.Put (some b) s

/-- The body shared verbatim by ConditionalBuilder.Render,
FunctionComponent.Render, FunctionsComponent.Render and TextNode.Render
when no writer is supplied: acquire a buffer from the facade, render into
it, and return buf.Bytes().  The bytes of the buffer are returned directly
and fluent.PutBuffer is not called on this path. -/
def renderNoWriter (n : Node) (s : PoolState) : List Nat × PoolState :=
  let p := NewBuffer s
  let buf1 := n.RenderBuilder p.1
  (buf1.data, p.2)

/-- The same Render body when a writer is supplied: acquire, render,
buf.WriteTo(w) — which drains the buffer's bytes into the sink — then
fluent.PutBuffer(buf) and return nil.  The result is the byte sequence the
sink received and the pool state after the release. -/
def renderToWriter (n : Node) (s : PoolState) : List Nat × PoolState :=
  let p := NewBuffer s
  let buf1 := n.RenderBuilder p.1
  (buf1.data, PutBuffer buf1.reset p.2)


/-- Trees built from ConditionalBuilder and TextNode only — no callback
variants — the class of fixed immutable trees named by the determinism
property. -/
def Node.noCallbacks : Node → Bool
  | .text _ => true
  | .conditional _ t f =>
    (match t with
     | some n => n.noCallbacks
     | none => true) &&
    (match f with
     | some n => n.noCallbacks
     | none => true)
  | .funcNode _ => false
  | .funcNodes _ => false

/-- The default-configuration pool state with both registries empty — the
state at process start. -/
def defaultState : PoolState :=
  { config := PoolConfig.default, small := [], large := [] }

/-- A state with pooling disabled and empty registries. -/
def disabledState : PoolState :=
  { config := { enabled := false, poolThreshold := 4096, maxPoolSize := 262144,
                discardOversized := true },
    small := [], large := [] }

/-- A state configured via SetMaxPoolSize(262144, false): oversized buffers
are, per that function's documentation, to be resized back to maxPoolSize
before being pooled. -/
def keepOversizedState : PoolState :=
  { config := { enabled := true, poolThreshold := 4096, maxPoolSize := 262144,
                discardOversized := false },
    small := [], large := [] }

/-- A state whose threshold is 2, used to exercise the threshold-routing
scenario: acquire with hint threshold − 1, grow past the threshold,
release. -/
def routeState : PoolState :=
  { config := { enabled := true, poolThreshold := 2, maxPoolSize := 262144,
                discardOversized := true },
    small := [], large := [] }

/-- The buffer acquired from routeState with hint threshold − 1 = 1, after
three bytes were written during use: its capacity grew from 1 to 3, past
the threshold. -/
def routeGrown : Buffer := ((Pool.Get 1 routeState).1).write [7, 7, 7]

/-- The end-to-end example conditional, built through the fluent API:
Condition(true).True(TextNode A).False(TextNode B).  The content bytes are
65 for A and 66 for B. -/
def exampleCond : Except Unit ConditionalBuilder :=
  match (Condition true).True (NodeArg.ofNode (.text [65])) with
  | .ok c => c.False (NodeArg.ofNode (.text [66]))
  | .error e => .error e

/-- The end-to-end example list component: a callback returning
TextNode 1 (byte 49), nil, TextNode 2 (byte 50). -/
def exampleList : Node :=
  .funcNodes (some [some (.text [49]), none, some (.text [50])])

/-- A concrete fixed immutable tree of conditional and text nodes. -/
def staticTree : Node := .conditional true (some (.text [65])) (some (.text [66]))

/-- The builder obtained by calling False(TextNode B) before
True(TextNode A) on Condition(true). -/
def falseFirstCond : Except Unit ConditionalBuilder :=
  match (Condition true).False (NodeArg.ofNode (.text [66])) with
  | .ok c => c.True (NodeArg.ofNode (.text [65]))
  | .error e => .error e

/-! Helper lemmas about the pool operations. -/

theorem Buffer.resetGrow_data (b : Buffer) (hint : Nat) : (b.resetGrow hint).data = [] := by
  unfold Buffer.resetGrow Buffer.grow Buffer.reset
  by_cases h : hint > 0 <;> simp only [h, if_true, if_false, ite_self]
  split <;> rfl

theorem Buffer.resetGrow_cap (b : Buffer) (hint : Nat) : hint ≤ (b.resetGrow hint).cap := by
  unfold Buffer.resetGrow Buffer.grow Buffer.reset
  by_cases h : hint > 0
  · simp only [h, if_true]
    split
    · next hle => simpa using Nat.le_trans hle (Nat.sub_le _ _)
    · simp only [List.length_nil, Nat.zero_add, le_max_iff]
      omega
  · omega

theorem Pool.Get_data (hint : Nat) (s : PoolState) : (Pool.Get hint s).1.data = [] := by
  unfold Pool.Get
  by_cases he : s.config.enabled = false
  · simp [he, Buffer.fresh]
  · simp only [he, if_false]
    by_cases ht : hint < s.config.poolThreshold
    · simp only [ht, if_true]
      cases s.small with
      | nil => exact Buffer.resetGrow_data _ _
      | cons b rest => exact Buffer.resetGrow_data _ _
    · simp only [ht, if_false]
      cases s.large with
      | nil => exact Buffer.resetGrow_data _ _
      | cons b rest => exact Buffer.resetGrow_data _ _

theorem Pool.Get_cap (hint : Nat) (s : PoolState) : hint ≤ (Pool.Get hint s).1.cap := by
  unfold Pool.Get
  by_cases he : s.config.enabled = false
  · simp [he, Buffer.fresh]
  · simp only [he, if_false]
    by_cases ht : hint < s.config.poolThreshold
    · simp only [ht, if_true]
      cases s.small with
      | nil => exact Buffer.resetGrow_cap _ _
      | cons b rest => exact Buffer.resetGrow_cap _ _
    · simp only [ht, if_false]
      cases s.large with
      | nil => exact Buffer.resetGrow_cap _ _
      | cons b rest => exact Buffer.resetGrow_cap _ _

theorem Pool.Get_registries_le (hint : Nat) (s : PoolState) :
    (Pool.Get hint s).2.small.length ≤ s.small.length ∧
    (Pool.Get hint s).2.large.length ≤ s.large.length := by
  unfold Pool.Get
  by_cases he : s.config.enabled = false
  · simp [he]
  · simp only [he, if_false]
    by_cases ht : hint < s.config.poolThreshold
    · simp only [ht, if_true]
      cases hs : s.small with
      | nil => simp [hs]
      | cons b rest => simp [hs]
    · simp only [ht, if_false]
      cases hl : s.large with
      | nil => simp [hl]
      | cons b rest => simp [hl]

/-- Unfolding lemma for the true-branch case of
ConditionalBuilder.RenderBuilder (the compiled matcher needs the other
branch to be a constructor before it reduces). -/
theorem Node.rb_conditional_true_some (n : Node) (f : Option Node) (b : Buffer) :
    Node.RenderBuilder (.conditional true (some n) f) b = n.RenderBuilder b := by
  cases f <;> rfl

/-- Unfolding lemma: condition true, no true branch, nothing rendered. -/
theorem Node.rb_conditional_true_none (f : Option Node) (b : Buffer) :
    Node.RenderBuilder (.conditional true none f) b = b := by
  cases f <;> rfl

/-- Unfolding lemma for the false-branch case. -/
theorem Node.rb_conditional_false_some (t : Option Node) (n : Node) (b : Buffer) :
    Node.RenderBuilder (.conditional false t (some n)) b = n.RenderBuilder b := by
  cases t <;> rfl

/-- Unfolding lemma: condition false, no false branch, nothing rendered. -/
theorem Node.rb_conditional_false_none (t : Option Node) (b : Buffer) :
    Node.RenderBuilder (.conditional false t none) b = b := by
  cases t <;> rfl

mutual

/-- The byte content RenderBuilder leaves in the buffer depends only on the
buffer's incoming content, never on its capacity. -/
theorem Node.renderBuilder_data_congr : ∀ (n : Node) (b1 b2 : Buffer),
    b1.data = b2.data → (n.RenderBuilder b1).data = (n.RenderBuilder b2).data
  | .text c, _, _, h => congrArg (fun d => d ++ c) h
  | .conditional true (some n) f, b1, b2, h => by
    rw [Node.rb_conditional_true_some, Node.rb_conditional_true_some]
    exact Node.renderBuilder_data_congr n b1 b2 h
  | .conditional true none f, b1, b2, h => by
    rw [Node.rb_conditional_true_none, Node.rb_conditional_true_none]
    exact h
  | .conditional false t (some n), b1, b2, h => by
    rw [Node.rb_conditional_false_some, Node.rb_conditional_false_some]
    exact Node.renderBuilder_data_congr n b1 b2 h
  | .conditional false t none, b1, b2, h => by
    rw [Node.rb_conditional_false_none, Node.rb_conditional_false_none]
    exact h
  | .funcNode (some (some n)), b1, b2, h => Node.renderBuilder_data_congr n b1 b2 h
  | .funcNode (some none), _, _, h => h
  | .funcNode none, _, _, h => h
  | .funcNodes (some ns), b1, b2, h => Node.renderEach_data_congr ns b1 b2 h
  | .funcNodes none, _, _, h => h

/-- The same for the FunctionsComponent loop. -/
theorem Node.renderEach_data_congr : ∀ (ns : List (Option Node)) (b1 b2 : Buffer),
    b1.data = b2.data → (Node.renderEach ns b1).data = (Node.renderEach ns b2).data
  | [], _, _, h => h
  | none :: rest, b1, b2, h => Node.renderEach_data_congr rest b1 b2 h
  | some n :: rest, b1, b2, h =>
    Node.renderEach_data_congr rest _ _ (Node.renderBuilder_data_congr n b1 b2 h)

end

/-! Claim theorems. -/

/-- C4: for every non-negative sizeHint and every pool state — enabled or
disabled, registries empty or not — pool.Get returns a buffer whose length
is zero and whose capacity is at least the hint; it never returns a buffer
whose length is nonzero, so no content from a previous use is visible
across reuse. -/
theorem C4_get_zero_length_sufficient_capacity (hint : Nat) (s : PoolState) :
    (Pool.Get hint s).1.data = [] ∧ hint ≤ (Pool.Get hint s).1.cap :=
  ⟨Pool.Get_data hint s, Pool.Get_cap hint s⟩

/-- C5: acquiring a buffer never fails — pool.Get is total, and with the
pool disabled or the selected registries empty it falls back to a fresh
allocation that leaves the pool state unchanged — and releasing never
fails: pool.Put of a nil buffer, or with pooling disabled, is a silently
accepted no-op on the pool state. -/
theorem C5_acquire_release_total (hint : Nat) (s : PoolState) (b : Buffer) :
    Pool.Put none s = s ∧
    (s.config.enabled = false → Pool.Put (some b) s = s) ∧
    (s.config.enabled = false → Pool.Get hint s = (Buffer.fresh hint, s)) ∧
    (s.small = [] → s.large = [] → (Pool.Get hint s).2 = s) ∧
    (Pool.Get hint s).1.data = [] := by
  refine ⟨?_, ?_, ?_, ?_, Pool.Get_data hint s⟩
  · unfold Pool.Put
    split <;> rfl
  · intro he
    unfold Pool.Put
    simp [he]
  · intro he
    unfold Pool.Get
    simp [he]
  · intro hs hl
    unfold Pool.Get
    by_cases he : s.config.enabled = false
    · simp [he]
    · simp only [he, if_false]
      by_cases ht : hint < s.config.poolThreshold
      · simp [ht, hs]
      · simp [ht, hl]

/-- Witness for C5 at hint 7 on the disabled empty-pool state. -/
theorem C5_witness :
    Pool.Put none disabledState = disabledState ∧
    Pool.Put (some (Buffer.fresh 3)) disabledState = disabledState ∧
    Pool.Get 7 disabledState = (Buffer.fresh 7, disabledState) ∧
    (Pool.Get 7 disabledState).2 = disabledState := by
  have h := C5_acquire_release_total 7 disabledState (Buffer.fresh 3)
  exact ⟨h.1, h.2.1 rfl, h.2.2.1 rfl, h.2.2.2.1 rfl rfl⟩

/-- C2: evaluation of pool.Put at the failing input.  With the default
configuration (discardOversized = true) an oversized buffer — capacity
262145 > maxPoolSize 262144 — is dropped and the state is unchanged, as the
claim says.  But with discardOversized = false the code pools the buffer
with its oversized capacity unchanged into the large registry: no
truncation back to maxPoolSize happens, contradicting the claim and the
documentation of SetMaxPoolSize. -/
theorem C2_oversized_put_not_truncated :
    Pool.Put (some (Buffer.fresh 262145)) defaultState = defaultState ∧
    (Pool.Put (some (Buffer.fresh 262145)) keepOversizedState).large
      = [Buffer.fresh 262145] ∧
    keepOversizedState.config.maxPoolSize < (Buffer.fresh 262145).cap := by
  refine ⟨by decide, by decide, by decide⟩

/-- C3: with pooling enabled, a non-oversized buffer released via pool.Put
is routed purely by its current capacity measured against the threshold —
into the small registry when capacity < threshold, into the large registry
otherwise.  Put receives no record of the acquisition hint, so the routing
cannot depend on it. -/
theorem C3_put_routes_by_capacity (s : PoolState) (b : Buffer)
    (he : s.config.enabled = true) (hm : b.cap ≤ s.config.maxPoolSize) :
    (b.cap < s.config.poolThreshold →
      Pool.Put (some b) s = { s with small := s.small ++ [b.reset] }) ∧
    (s.config.poolThreshold ≤ b.cap →
      Pool.Put (some b) s = { s with large := s.large ++ [b.reset] }) := by
  have hno : ¬(s.config.maxPoolSize < b.cap ∧ s.config.discardOversized = true) :=
    fun hc => absurd hc.1 (by omega)
  refine ⟨fun hlt => ?_, fun hge => ?_⟩
  · unfold Pool.Put
    simp [he, hno, hlt]
  · unfold Pool.Put
    simp [he, hno, Nat.not_lt.mpr hge]

/-- Witness for C3: the spec scenario with threshold T = 2 — a buffer
acquired with hint T − 1 = 1 whose capacity grew to 3 during use is routed
into the large registry on release. -/
theorem C3_witness :
    routeState.config.enabled = true ∧
    routeGrown.cap ≤ routeState.config.maxPoolSize ∧
    routeState.config.poolThreshold ≤ routeGrown.cap ∧
    Pool.Put (some routeGrown) routeState = { routeState with large := [routeGrown.reset] } := by
  have h := C3_put_routes_by_capacity routeState routeGrown rfl (by decide)
  exact ⟨rfl, by decide, by decide, h.2 (by decide)⟩

/-- C1 counterexample: after a sink-less Render of TextNode A from the
default empty-pool state both registries are still empty — the acquired
buffer was not released back to the pool before returning — although
releasing the rendered buffer (as the claim asserts happens) would have
been observable: PutBuffer on it places it in the small registry. -/
theorem C1_counterexample :
    (renderNoWriter (.text [65]) defaultState).2 = defaultState ∧
    defaultState.small = [] ∧
    defaultState.large = [] ∧
    (PutBuffer (Node.RenderBuilder (.text [65]) (NewBuffer defaultState).1)
        defaultState).small = [Buffer.mk [] 1] := by
  exact ⟨rfl, rfl, rfl, rfl⟩

/-- C1 amended: for every node, a sink-less Render returns the rendered
bytes of the acquired buffer but does not release the buffer back to the
pool: the pool state after the call is exactly the post-acquire state, so
neither registry ever gains a buffer on this path, and the buffer — and
hence the returned byte sequence — can never be handed out again by a
subsequent acquire. -/
theorem C1_render_returns_bytes_without_release (n : Node) (s : PoolState) :
    (renderNoWriter n s).2 = (Pool.Get 0 s).2 ∧
    (renderNoWriter n s).2.small.length ≤ s.small.length ∧
    (renderNoWriter n s).2.large.length ≤ s.large.length ∧
    (renderNoWriter n s).1 = (Node.RenderBuilder n (Pool.Get 0 s).1).data := by
  exact ⟨rfl, (Pool.Get_registries_le 0 s).1, (Pool.Get_registries_le 0 s).2, rfl⟩

/-- C6: the end-to-end example renders to exactly the bytes of the string
A12.  The builder chain Condition(true).True(A).False(B) succeeds, and
rendering the conditional followed by the list component — whose callback
yields TextNode 1, nil, TextNode 2 — into the buffer acquired for a
sink-less Render produces the byte sequence [65, 49, 50]. -/
theorem C6_example_renders_A12 :
    exampleCond = .ok { condition := true, trueNode := some (.text [65]),
                        falseNode := some (.text [66]) } ∧
    (exampleList.RenderBuilder
      (ConditionalBuilder.RenderBuilder
        { condition := true, trueNode := some (.text [65]),
          falseNode := some (.text [66]) }
        (NewBuffer defaultState).1)).data = [65, 49, 50] := by
  exact ⟨rfl, rfl⟩

/-- C7: an absent node renders nothing and is never an error: for every
buffer, a conditional with condition false and no stored false branch
appends nothing, whatever its true branch, and a FunctionComponent whose
callback returns nil appends nothing.  Both RenderBuilder calls are total
functions on buffers — the render path has no error channel at all. -/
theorem C7_absent_renders_nothing (t : Option Node) (b : Buffer) :
    Node.RenderBuilder (.conditional false t none) b = b ∧
    Node.RenderBuilder (.funcNode (some none)) b = b :=
  ⟨Node.rb_conditional_false_none t b, rfl⟩

/-- C8 counterexample: with False(TextNode B) called before
True(TextNode A), the insertion order is B then A, but Nodes returns
[TextNode A, TextNode B] — the true branch always comes first, so the
result is not in the order in which True and False were called. -/
theorem C8_counterexample :
    falseFirstCond = .ok { condition := true, trueNode := some (.text [65]),
                           falseNode := some (.text [66]) } ∧
    ConditionalBuilder.Nodes
        { condition := true, trueNode := some (.text [65]),
          falseNode := some (.text [66]) }
      = [.text [65], .text [66]] ∧
    ([Node.text [65], Node.text [66]] ≠ [Node.text [66], Node.text [65]]) := by
  refine ⟨rfl, rfl, ?_⟩
  intro heq
  have h1 : Node.text [65] = Node.text [66] := by injection heq
  have h2 : ([65] : List Nat) = [66] := by injection h1
  exact absurd h2 (by decide)

/-- C8 amended: Nodes returns exactly the non-absent stored branches with
the true branch first and the false branch second, independent of the order
in which True and False were called — setting both branches in either order
yields the same builder — and the entries are the stored branch Nodes
themselves, never unevaluated callbacks. -/
theorem C8_nodes_branches_true_first (c : ConditionalBuilder) (a b : Node) :
    Except.bind (c.True (NodeArg.ofNode a)) (fun c1 => c1.False (NodeArg.ofNode b)) =
      Except.bind (c.False (NodeArg.ofNode b)) (fun c1 => c1.True (NodeArg.ofNode a)) ∧
    Except.bind (c.True (NodeArg.ofNode a)) (fun c1 => c1.False (NodeArg.ofNode b)) =
      .ok { condition := c.condition, trueNode := some a, falseNode := some b } ∧
    ConditionalBuilder.Nodes
        { condition := c.condition, trueNode := some a, falseNode := some b }
      = [a, b] := by
  exact ⟨rfl, rfl, rfl⟩

/-- C9: rendering a fixed immutable tree of conditionals and text nodes —
no callbacks — through the sink-less Render path is deterministic: any two
independent calls, from any two pool states (pooling enabled or disabled,
registries arbitrary), produce byte-identical output. -/
theorem C9_render_deterministic (n : Node) (h : n.noCallbacks = true)
    (s1 s2 : PoolState) :
    (renderNoWriter n s1).1 = (renderNoWriter n s2).1 :=
  Node.renderBuilder_data_congr n (Pool.Get 0 s1).1 (Pool.Get 0 s2).1
    (by rw [Pool.Get_data, Pool.Get_data])

/-- Witness for C9: the concrete static tree rendered from the default
enabled state and from a disabled state gives the same bytes. -/
theorem C9_witness :
    staticTree.noCallbacks = true ∧
    (renderNoWriter staticTree defaultState).1 = (renderNoWriter staticTree disabledState).1 :=
  ⟨rfl, C9_render_deterministic staticTree rfl defaultState disabledState⟩

/-- C10: ConditionalBuilder.True and ConditionalBuilder.False are total for
nil interface arguments and for arguments whose dynamic kind supports
IsNil, but for every non-nil argument of a non-nilable dynamic kind — a
struct value implementing Node, say — the reflection check
reflect.ValueOf(node).IsNil() panics (modelled as Except.error) instead of
storing the node. -/
theorem C10_reflection_nil_check_panics (c : ConditionalBuilder) (k : GoKind)
    (isNil : Bool) (n : Node) :
    (k.nilable = false →
      c.True (.value k isNil n) = .error () ∧
      c.False (.value k isNil n) = .error ()) ∧
    c.True .nilIface = .ok c ∧
    c.False .nilIface = .ok c ∧
    (k.nilable = true → ∃ c1, c.True (.value k isNil n) = .ok c1) := by
  refine ⟨fun hk => ?_, rfl, rfl, fun hk => ?_⟩
  · unfold ConditionalBuilder.True ConditionalBuilder.False reflectIsNil
    simp [hk]
  · cases isNil with
    | true =>
      exact ⟨c, by unfold ConditionalBuilder.True reflectIsNil; simp [hk]⟩
    | false =>
      exact ⟨{ c with trueNode := some n },
        by unfold ConditionalBuilder.True reflectIsNil; simp [hk]⟩

/-- Witness for C10: a non-nil argument of struct kind makes True panic. -/
theorem C10_witness :
    GoKind.structK.nilable = false ∧
    (Condition true).True (.value .structK false (.text [65])) = .error () :=
  ⟨rfl,
    ((C10_reflection_nil_check_panics (Condition true) .structK false (.text [65])).1 rfl).1⟩
